import Mathlib

/-!
# Verification of the anomaly-filtering routine of the solar-investigator backend

This file gives a shallow embedding, in Lean 4, of the function
`filter_plant_timeseries_data` found in
`src/backend/src/adk/problem_finder/sub_agents/detailed_plant_timeseries_agent/tools.py`,
together with theorems settling the behavioural claims made about it.

Modelling conventions:

* Numeric cell values are `Option ℚ`: `none` stands for a missing value
  (an absent JSON key, which pandas turns into `NaN`); comparisons against
  `none` are `false`, mirroring the IEEE rule that every comparison with
  `NaN` is false.  Exact rationals stand in for the floating-point numbers
  of the source; every threshold comparison of the source is embedded as
  the corresponding exact comparison (square roots are eliminated by
  squaring both sides of the comparison, which is equivalent since both
  sides are nonnegative).
* A pandas DataFrame column is "present" when at least one record carries
  an actual value for the field; accessing an absent column raises a
  `KeyError`, embedded as `Except.error`.
* The two external numerical libraries that the routine calls —
  statsmodels (`seasonal_decompose`) and scikit-learn (`IsolationForest`,
  invoked with `contamination=0.05` and the fixed `random_state=42`, hence
  a deterministic function of its input) — are abstracted as oracle
  functions collected in the `Externals` structure, as is the pandas
  `to_json` serializer.  The documented precondition of
  `seasonal_decompose` (the series must contain two full seasonal periods,
  i.e. `2 * 48` observations here, otherwise it raises) is part of the
  embedding, since the source relies on it through its `try/except` block.
-/

namespace AnomalyFilter

/-- One five-minute telemetry sample, as parsed from the caller-supplied
JSON.  Each field is optional: `none` models a record in which the key is
absent (pandas fills the cell with `NaN`). -/
structure TelemetryRecord where
  datetime : Option String
  irradiance_wm_squared : Option ℚ
  pv_module_temperature_c : Option ℚ
  active_power_effective_kw : Option ℚ
  five_min_pr_percent : Option ℚ
deriving DecidableEq, Repr

/-- One record of the returned, filtered frame: the five columns selected
at the end of `filter_plant_timeseries_data`. -/
structure FilteredRecord where
  datetime : Option String
  five_min_pr_percent : Option ℚ
  active_power_effective_kw : Option ℚ
  irradiance_wm_squared : Option ℚ
  pv_module_temperature_c : Option ℚ
deriving DecidableEq, Repr

/-- The oracles standing for the external libraries invoked by the routine.
`decompose` models `statsmodels.seasonal_decompose` (return value: the
residual column, `none` when the call raises for a reason other than the
length precondition, e.g. leading NaNs that `interpolate` cannot fill);
`mlPredict` models `IsolationForest(contamination=0.05, random_state=42)
.fit_predict` on the complete feature rows, returning `true` for rows
predicted as outliers (prediction is -1); `toJson` models
`DataFrame.to_json(orient="records")`. -/
structure Externals where
  decompose : List (Option ℚ) → Option (List (Option ℚ))
  mlPredict : List (ℚ × ℚ × ℚ) → List Bool
  toJson : List FilteredRecord → String

/-- The `contamination` argument passed to `IsolationForest`. -/
def isolationForestContamination : ℚ := 1 / 20

/-- The `random_state` argument passed to `IsolationForest`; a fixed seed,
so the fitted model is a deterministic function of the feature matrix. -/
def isolationForestRandomState : Nat := 42

/-- The `period` argument passed to `seasonal_decompose`. -/
def seasonalDecomposePeriod : Nat := 48

/-- The mutable ADK tool state, a string-keyed dictionary. -/
def ToolState := String → Option String

/-- The empty tool state. -/
def emptyState : ToolState := fun _ => none

/-- Dictionary update, `state[k] = v`. -/
def stateSet (st : ToolState) (k v : String) : ToolState :=
  fun k2 => if k2 = k then some v else st k2

/-- The state key written by the routine. -/
def stateKey : String := "filtered_plant_timeseries_df"

/-- The `active_power_effective_kw` column. -/
def powerCol (rs : List TelemetryRecord) : List (Option ℚ) :=
  rs.map TelemetryRecord.active_power_effective_kw

/-- The `irradiance_wm_squared` column. -/
def irrCol (rs : List TelemetryRecord) : List (Option ℚ) :=
  rs.map TelemetryRecord.irradiance_wm_squared

/-- The `five_min_pr_percent` column. -/
def prCol (rs : List TelemetryRecord) : List (Option ℚ) :=
  rs.map TelemetryRecord.five_min_pr_percent

/-- The `pv_module_temperature_c` column. -/
def tempCol (rs : List TelemetryRecord) : List (Option ℚ) :=
  rs.map TelemetryRecord.pv_module_temperature_c

/-- The `datetime` column. -/
def dtCol (rs : List TelemetryRecord) : List (Option String) :=
  rs.map TelemetryRecord.datetime

/-- Comparison `c < value` on an optional cell; false on a missing cell,
as for NaN. -/
def optGtB (o : Option ℚ) (c : ℚ) : Bool :=
  match o with
  | some x => decide (c < x)
  | none => false

/-- Comparison `value < c` on an optional cell; false on a missing cell. -/
def optLtB (o : Option ℚ) (c : ℚ) : Bool :=
  match o with
  | some x => decide (x < c)
  | none => false

/-- Sum of a list of rationals. -/
def listSum (l : List ℚ) : ℚ := l.foldr (fun a b => a + b) 0

/-- Pairwise difference used by `Series.diff`: next value minus previous
value, `NaN` when either side is missing. -/
def diffOne (a b : Option ℚ) : Option ℚ :=
  match a, b with
  | some x, some y => some (y - x)
  | _, _ => none

/-- `Series.diff()`: element `i` is `x[i] - x[i-1]`, with `NaN` in the
first position. -/
def diffList : List (Option ℚ) → List (Option ℚ)
  | [] => []
  | x :: xs => none :: List.zipWith diffOne (x :: xs) xs

/-- Derived feature `norm_power` of one record: the source divides power
by the irradiance column with `0` replaced by `NA`, so zero irradiance
yields a missing value, never infinity (lines 50-52 of the source). -/
def normPower (r : TelemetryRecord) : Option ℚ :=
  match r.active_power_effective_kw, r.irradiance_wm_squared with
  | some p, some irr => if irr = 0 then none else some (p / irr)
  | _, _ => none

/-- Trailing rolling mean with window 12 and `min_periods=1`: the mean of
the non-missing values among positions `max(0, i-11) .. i`, missing when
the window holds no value.  The source computes this `smoothed_power`
column but never uses it afterwards. -/
def smoothedPowerList (rs : List TelemetryRecord) : List (Option ℚ) :=
  let xs := powerCol rs
  (List.range xs.length).map fun i =>
    let vals := ((List.range xs.length).filter fun j =>
      j ≤ i ∧ i < j + 12).filterMap fun j => xs.getD j none
    if vals.length = 0 then none else some (listSum vals / (vals.length : ℚ))

/-- Rule `low_yield`: irradiance above 400 and performance ratio below 60
(line 58-60 of the source). -/
def lowYieldList (rs : List TelemetryRecord) : List Bool :=
  rs.map fun r =>
    optGtB r.irradiance_wm_squared 400 && optLtB r.five_min_pr_percent 60

/-- Rule `power_drop`: first difference of power below -100; the missing
first difference compares false (line 61 of the source). -/
def powerDropList (rs : List TelemetryRecord) : List Bool :=
  (diffList (powerCol rs)).map fun d =>
    match d with
    | some x => decide (x < -100)
    | none => false

/-- Rule `clipping`: absolute first difference of power below 1 while
irradiance is above 900 (lines 62-65 of the source); the comparison
`abs(diff) < 1` is embedded as the equivalent `-1 < diff AND diff < 1`. -/
def clippingList (rs : List TelemetryRecord) : List Bool :=
  List.zipWith (fun d irr =>
    (match d with
     | some x => decide (-1 < x) && decide (x < 1)
     | none => false) && optGtB irr 900)
    (diffList (powerCol rs)) (irrCol rs)

/-- Sample variance (`ddof = 1`, the pandas `Series.std` default),
squared: `std^2`.  Only meaningful for two or more values. -/
def sampleVariance (vals : List ℚ) : ℚ :=
  let n : ℚ := (vals.length : ℚ)
  (listSum (vals.map fun x => x * x) - (listSum vals) ^ 2 / n) / (n - 1)

/-- Population variance (`ddof = 0`, the `np.std` default), squared:
`std^2`. -/
def popVariance (vals : List ℚ) : ℚ :=
  let n : ℚ := (vals.length : ℚ)
  listSum (vals.map fun x => x * x) / n - (listSum vals / n) ^ 2

/-- Flags `residual_anomaly` (lines 67-81 of the source).  The series is
handed to `seasonal_decompose` with `period = 48`; statsmodels raises
unless the series holds at least two full periods, and the surrounding
`try/except` turns any failure into an all-false column.  On success the
rows with `|residual| > 3 * residual.std()` are flagged; the comparison is
embedded squared (`r^2 > 9 * variance`), `Series.std()` skips missing
values and is `NaN` (giving an all-false comparison) on fewer than two
values. -/
def residualAnomalyList (ext : Externals) (rs : List TelemetryRecord) : List Bool :=
  if (powerCol rs).length < 2 * seasonalDecomposePeriod then
    List.replicate rs.length false
  else
    match ext.decompose (powerCol rs) with
    | none => List.replicate rs.length false
    | some resid =>
      let vals := resid.filterMap id
      let var? : Option ℚ :=
        if 2 ≤ vals.length then some (sampleVariance vals) else none
      (List.range rs.length).map fun i =>
        match resid.getD i none, var? with
        | some r, some v => decide (r * r > 9 * v)
        | _, _ => false

/-- The Isolation-Forest feature row of one record, present only when all
of `norm_power`, `five_min_pr_percent`, `pv_module_temperature_c` are
present (the `dropna` of line 84-86). -/
def mlFeatureOf (r : TelemetryRecord) : Option (ℚ × ℚ × ℚ) :=
  match normPower r, r.five_min_pr_percent, r.pv_module_temperature_c with
  | some np, some pr, some t => some (np, pr, t)
  | _, _, _ => none

/-- The complete feature rows, in record order. -/
def mlFeatures (rs : List TelemetryRecord) : List (ℚ × ℚ × ℚ) :=
  rs.filterMap mlFeatureOf

/-- Whether the Isolation Forest is fitted at all: the source guards the
fit with `if len(ml_features) > 10` (line 87). -/
def mlFitted (rs : List TelemetryRecord) : Bool :=
  decide (10 < (mlFeatures rs).length)

/-- Scatter the per-complete-row predictions back onto the full index,
filling the incomplete rows with `false` (the `df.loc[...] = ...` plus
`fillna(False)` of lines 90-94). -/
def mlAnomalyAssign : List TelemetryRecord → List Bool → List Bool
  | [], _ => []
  | r :: rest, preds =>
    match mlFeatureOf r with
    | some _ => preds.headD false :: mlAnomalyAssign rest preds.tail
    | none => false :: mlAnomalyAssign rest preds

/-- Flags `ml_anomaly` (lines 83-96 of the source): predictions of the
fitted Isolation Forest on the complete rows when more than 10 complete
rows exist, all-false otherwise. -/
def mlAnomalyList (ext : Externals) (rs : List TelemetryRecord) : List Bool :=
  if 10 < (mlFeatures rs).length then
    mlAnomalyAssign rs (ext.mlPredict (mlFeatures rs))
  else
    rs.map fun _ => false

/-- Window length of the exploratory rolling mean:
`max(5, len(power_values) // 20)` (line 108). -/
def windowSize (n : Nat) : Nat := max 5 (n / 20)

/-- Centered rolling mean with the pandas default `min_periods = window`:
for window `w` the pandas fixed-window indexer covers positions
`i + (w-1)/2 + 1 - w .. i + (w-1)/2` (integer division), and the cell is
missing unless the window contains `w` non-missing values. -/
def rollingCenteredMean (w : Nat) (xs : List (Option ℚ)) : List (Option ℚ) :=
  let n := xs.length
  let off := (w - 1) / 2
  (List.range n).map fun i =>
    let vals := ((List.range n).filter fun j =>
      j ≤ i + off ∧ i + off < j + w).filterMap fun j => xs.getD j none
    if vals.length = w then some (listSum vals / (w : ℚ)) else none

/-- Forward fill: each missing cell takes the last preceding value. -/
def ffillAux : Option ℚ → List (Option ℚ) → List (Option ℚ)
  | _, [] => []
  | _, some v :: rest => some v :: ffillAux (some v) rest
  | c, none :: rest => c :: ffillAux c rest

/-- `Series.ffill()`. -/
def ffill (xs : List (Option ℚ)) : List (Option ℚ) := ffillAux none xs

/-- `Series.bfill()`: each missing cell takes the next following value. -/
def bfill (xs : List (Option ℚ)) : List (Option ℚ) :=
  (ffill xs.reverse).reverse

/-- The exploratory trend: centered rolling mean of the power column,
then `bfill().ffill()` (lines 107-110 of the source). -/
def statTrend (rs : List TelemetryRecord) : List (Option ℚ) :=
  ffill (bfill (rollingCenteredMean (windowSize rs.length) (powerCol rs)))

/-- Exploratory residuals, `power_values - trend` (line 111). -/
def statResiduals (rs : List TelemetryRecord) : List (Option ℚ) :=
  List.zipWith (fun p t =>
    match p, t with
    | some a, some b => some (a - b)
    | _, _ => none) (powerCol rs) (statTrend rs)

/-- Squared `np.std(residuals)` (line 114): `np.std` does not skip `NaN`,
so the threshold is missing as soon as one residual is missing (making
every comparison against it false), and on an empty array. -/
def statVariance (rs : List TelemetryRecord) : Option ℚ :=
  let res := statResiduals rs
  if res.length ≠ 0 ∧ res.all Option.isSome then
    some (popVariance (res.filterMap id))
  else none

/-- Flags `stat_outlier` (line 135 of the source):
`|residual| > 1.5 * np.std(residuals)`, embedded squared as
`r^2 > (9/4) * variance`. -/
def statOutlierList (rs : List TelemetryRecord) : List Bool :=
  (statResiduals rs).map fun r =>
    match r, statVariance rs with
    | some x, some v => decide (x * x > 9 / 4 * v)
    | _, _ => false

/-- The looser low-yield mask of the exploratory pass (lines 118-121):
irradiance above 400 and performance ratio below 70. -/
def prMaskList (rs : List TelemetryRecord) : List Bool :=
  rs.map fun r =>
    optGtB r.irradiance_wm_squared 400 && optLtB r.five_min_pr_percent 70

/-- Column `exploratory_final` (lines 113-124): the statistical mask, or
additionally the looser PR mask when the PR column exists.  Computed by
the source but never used for the returned result. -/
def exploratoryFinalList (rs : List TelemetryRecord) : List Bool :=
  if (prCol rs).any Option.isSome then
    List.zipWith (fun a b => a || b) (statOutlierList rs) (prMaskList rs)
  else statOutlierList rs

/-- Sorted insertion, ascending. -/
def insertSorted (x : ℚ) : List ℚ → List ℚ
  | [] => [x]
  | y :: ys => if x ≤ y then x :: y :: ys else y :: insertSorted x ys

/-- Insertion sort, ascending. -/
def sortQ (l : List ℚ) : List ℚ := l.foldr insertSorted []

/-- Floor of a nonnegative rational, as a natural number. -/
def natFloorQ (q : ℚ) : Nat := (q.num / (q.den : Int)).toNat

/-- The pandas `Series.quantile(0.95)` with the default linear
interpolation, over the present values: with the sorted values
`v_0 .. v_(m-1)` and `h = 0.95 * (m - 1)`, the result is
`v_k + (h - k) * (v_(k+1) - v_k)` for `k = floor h`; missing on an empty
column. -/
def quantile95 (l : List ℚ) : Option ℚ :=
  match sortQ l with
  | [] => none
  | v :: tail =>
    let s := v :: tail
    let m := s.length
    let h : ℚ := 19 / 20 * ((m : ℚ) - 1)
    let k := natFloorQ h
    let a := s.getD k v
    let b := s.getD (k + 1) a
    some (a + (h - (k : ℚ)) * (b - a))

/-- The present module temperatures, in record order. -/
def tempVals (rs : List TelemetryRecord) : List ℚ :=
  rs.filterMap TelemetryRecord.pv_module_temperature_c

/-- The temperature flag of lines 143-147: temperature strictly above the
0.95 quantile of the temperature column. -/
def tempOutlierList (rs : List TelemetryRecord) : List Bool :=
  rs.map fun r =>
    match r.pv_module_temperature_c, quantile95 (tempVals rs) with
    | some t, some q => decide (q < t)
    | _, _ => false

/-- Column `production_final` (lines 99-101): the row-wise union of
`low_yield`, `power_drop`, `clipping`, `residual_anomaly`, `ml_anomaly`.
This column is computed by the source but does not feed the returned
result. -/
def productionFinalList (ext : Externals) (rs : List TelemetryRecord) : List Bool :=
  (List.range rs.length).map fun i =>
    [lowYieldList rs, powerDropList rs, clippingList rs,
      residualAnomalyList ext rs, mlAnomalyList ext rs].any fun c => c.getD i false

/-- Whether the temperature column exists in the frame. -/
def tempColumnPresent (rs : List TelemetryRecord) : Bool :=
  (tempCol rs).any Option.isSome

/-- Column `hybrid_final` (lines 128-149): the row-wise union of
`low_yield`, `power_drop`, `stat_outlier`, `ml_anomaly` and, when the
temperature column exists, the temperature flag.  The `ml_anomaly` column
exists unconditionally (both branches of lines 87-96 create it), so its
guard of line 139 is always taken. -/
def hybridFinalList (ext : Externals) (rs : List TelemetryRecord) : List Bool :=
  let conds := [lowYieldList rs, powerDropList rs, statOutlierList rs,
      mlAnomalyList ext rs] ++
    (if tempColumnPresent rs then [tempOutlierList rs] else [])
  (List.range rs.length).map fun i => conds.any fun c => c.getD i false

/-- Projection onto the five returned columns (lines 153-161). -/
def project (r : TelemetryRecord) : FilteredRecord :=
  ⟨r.datetime, r.five_min_pr_percent, r.active_power_effective_kw,
    r.irradiance_wm_squared, r.pv_module_temperature_c⟩

/-- The rows of `hybrid_anomalies`, projected onto the returned columns:
the records whose `hybrid_final` flag is true, in input order. -/
def filteredRecords (ext : Externals) (rs : List TelemetryRecord) : List FilteredRecord :=
  ((rs.zip (hybridFinalList ext rs)).filter fun p => p.2).map fun p => project p.1

/-- The serialized result, `filtered_df.to_json(orient="records")`. -/
def serializeResult (ext : Externals) (rs : List TelemetryRecord) : String :=
  ext.toJson (filteredRecords ext rs)

/-- The column accesses of the routine, in source order: a missing column
raises `KeyError` at the first access.  `active_power_effective_kw` and
`irradiance_wm_squared` are first touched at line 50, `five_min_pr_percent`
at lines 58-59, `pv_module_temperature_c` at the feature selection of line
84 (outside any `try`), and `datetime` at the final column selection of
line 153. -/
def checkColumns (rs : List TelemetryRecord) : Option String :=
  if (powerCol rs).any Option.isSome = false then
    some "KeyError: active_power_effective_kw"
  else if (irrCol rs).any Option.isSome = false then
    some "KeyError: irradiance_wm_squared"
  else if (prCol rs).any Option.isSome = false then
    some "KeyError: five_min_pr_percent"
  else if (tempCol rs).any Option.isSome = false then
    some "KeyError: pv_module_temperature_c"
  else if (dtCol rs).any Option.isSome = false then
    some "KeyError: datetime"
  else none

/-- The embedded `filter_plant_timeseries_data`: on a frame with all the
required columns it stores the serialized filtered frame under
`"filtered_plant_timeseries_df"` in the tool state and returns the same
string; a missing column surfaces as an error. -/
def filterPlantTimeseriesData (ext : Externals) (rs : List TelemetryRecord)
    (st : ToolState) : Except String (String × ToolState) :=
  match checkColumns rs with
  | some msg => Except.error msg
  | none =>
    let res := serializeResult ext rs
    Except.ok (res, stateSet st stateKey res)

/-- Well-formed input: a nonempty record list in which every record
carries every field, the shape the spec calls a well-formed sequence of
telemetry records. -/
def WellFormed (rs : List TelemetryRecord) : Prop :=
  rs ≠ [] ∧ ∀ r ∈ rs, r.datetime.isSome = true ∧
    r.irradiance_wm_squared.isSome = true ∧
    r.pv_module_temperature_c.isSome = true ∧
    r.active_power_effective_kw.isSome = true ∧
    r.five_min_pr_percent.isSome = true

instance (rs : List TelemetryRecord) : Decidable (WellFormed rs) := by
  unfold WellFormed
  infer_instance

/-- The per-row union of the five flags that the claim about the returned
rows names: `low_yield`, `power_drop`, `stat_outlier`, `ml_anomaly`,
`temp_outlier`. -/
def fiveFlagUnion (ext : Externals) (rs : List TelemetryRecord) : List Bool :=
  (List.range rs.length).map fun i =>
    (lowYieldList rs).getD i false || (powerDropList rs).getD i false ||
    (statOutlierList rs).getD i false || (mlAnomalyList ext rs).getD i false ||
    (tempOutlierList rs).getD i false

/-- A trivial instantiation of the external oracles, used for concrete
evaluations: the decomposition always fails, the forest flags nothing,
and serialization is constant. -/
def extTriv : Externals := ⟨fun _ => none, fun _ => [], fun _ => "[]"⟩

/-- A record with every field present. -/
def mkRec (dt : String) (irr temp pw pr : ℚ) : TelemetryRecord :=
  ⟨some dt, some irr, some temp, some pw, some pr⟩

/-- A record with every field absent. -/
def defaultRecord : TelemetryRecord := ⟨none, none, none, none, none⟩

/-- Three identical records under bright sun with flat power: the middle
and last rows satisfy the clipping rule and no other flag. -/
def exC2 : List TelemetryRecord :=
  [mkRec "t0" 950 25 500 80, mkRec "t1" 950 25 500 80, mkRec "t2" 950 25 500 80]

/-- Ten records, each with a complete feature row. -/
def exC3 : List TelemetryRecord :=
  (List.range 10).map fun i => mkRec (toString i) 500 (25 + i) 100 70

/-- Two records of which only the first is missing
`active_power_effective_kw`: the column still exists in the frame. -/
def exC4 : List TelemetryRecord :=
  [⟨some "a", some 100, some 20, none, some 50⟩, mkRec "b" 100 20 10 50]

/-- One record missing `active_power_effective_kw`: the column is absent
from the frame. -/
def exC4bad : List TelemetryRecord :=
  [⟨some "a", some 1, some 2, none, some 3⟩]

/-- Five well-formed records. -/
def exC5 : List TelemetryRecord :=
  [mkRec "a" 500 25 100 90, mkRec "b" 500 25 100 90, mkRec "c" 500 26 100 90,
    mkRec "d" 500 25 101 90, mkRec "e" 500 25 100 90]

/-- One well-formed record satisfying the strict low-yield rule. -/
def exW2 : List TelemetryRecord := [mkRec "w" 500 25 100 50]

/-- A well-formed record with zero irradiance. -/
def rC8zero : TelemetryRecord := mkRec "z" 0 20 10 50

/-- Two well-formed records of which the first has zero irradiance. -/
def rsC8 : List TelemetryRecord := [rC8zero, mkRec "y" 100 20 10 50]

theorem checkColumns_eq_none (rs : List TelemetryRecord) (h : WellFormed rs) :
    checkColumns rs = none := by
  obtain ⟨hne, hall⟩ := h
  obtain ⟨r, rest, rfl⟩ := List.exists_cons_of_ne_nil hne
  obtain ⟨h1, h2, h3, h4, h5⟩ := hall r (List.mem_cons_self r rest)
  simp [checkColumns, powerCol, irrCol, prCol, tempCol, dtCol, h1, h2, h3, h4, h5]

theorem run_ok_of_wellFormed (ext : Externals) (rs : List TelemetryRecord)
    (st : ToolState) (h : WellFormed rs) :
    filterPlantTimeseriesData ext rs st =
      Except.ok (serializeResult ext rs, stateSet st stateKey (serializeResult ext rs)) := by
  unfold filterPlantTimeseriesData
  rw [checkColumns_eq_none rs h]

theorem tempColumnPresent_of_wellFormed (rs : List TelemetryRecord)
    (h : WellFormed rs) : tempColumnPresent rs = true := by
  obtain ⟨hne, hall⟩ := h
  obtain ⟨r, rest, rfl⟩ := List.exists_cons_of_ne_nil hne
  have h3 := (hall r (List.mem_cons_self r rest)).2.2.1
  simp [tempColumnPresent, tempCol, h3]

theorem hybrid_eq_fiveFlagUnion (ext : Externals) (rs : List TelemetryRecord)
    (h : tempColumnPresent rs = true) :
    hybridFinalList ext rs = fiveFlagUnion ext rs := by
  unfold hybridFinalList fiveFlagUnion
  rw [h]
  simp [List.any_cons, List.any_nil, Bool.or_assoc]

theorem map_const_false {α : Type} (l : List α) :
    (l.map fun _ => false) = List.replicate l.length false := by
  induction l with
  | nil => rfl
  | cons a l ih => simp [List.replicate_succ, ih]

theorem filter_zip_map_sublist {α β : Type} (f : α → β) :
    ∀ (l : List α) (bs : List Bool),
      List.Sublist (((l.zip bs).filter fun p => p.2).map fun p => f p.1) (l.map f) := by
  intro l
  induction l with
  | nil => intro bs; simp
  | cons a l ih =>
    intro bs
    cases bs with
    | nil => simp
    | cons b bs =>
      cases b with
      | true => simpa [List.filter_cons] using List.Sublist.cons₂ (f a) (ih bs)
      | false => simpa [List.filter_cons] using List.Sublist.cons (f a) (ih bs)

theorem mem_filter_zip_map {α β : Type} (f : α → β) :
    ∀ (l : List α) (bs : List Bool) (i : Nat) (hi : i < l.length),
      bs.getD i false = true →
      f (l.get ⟨i, hi⟩) ∈ ((l.zip bs).filter fun p => p.2).map fun p => f p.1 := by
  intro l
  induction l with
  | nil => intro bs i hi _; exact absurd hi (by simp)
  | cons a l ih =>
    intro bs i hi hb
    cases bs with
    | nil => simp at hb
    | cons b bs =>
      cases i with
      | zero =>
        have hb0 : b = true := by simpa using hb
        subst hb0
        simp [List.filter_cons]
      | succ i =>
        have hi2 : i < l.length := by simpa using hi
        have hmem := ih bs i hi2 (by simpa using hb)
        have hz : ((a :: l).zip (b :: bs)) = (a, b) :: l.zip bs := rfl
        cases b with
        | true =>
          have hf : ((a, true) :: l.zip bs).filter (fun p => p.2) =
              (a, true) :: (l.zip bs).filter (fun p => p.2) := by simp
          rw [hz, hf, List.map_cons]
          exact List.mem_cons_of_mem _ hmem
        | false =>
          have hf : ((a, false) :: l.zip bs).filter (fun p => p.2) =
              (l.zip bs).filter (fun p => p.2) := by simp
          rw [hz, hf]
          exact hmem

theorem getD_range_map {β : Type} (f : Nat → β) (n i : Nat) (d : β) (hi : i < n) :
    ((List.range n).map f).getD i d = f i := by
  rw [List.getD_eq_getElem?_getD, List.getElem?_map, List.getElem?_range hi]
  rfl

/-- C1: for every well-formed input, `filter_plant_timeseries_data`
returns (and stores) exactly the records whose union of the flags
`low_yield`, `power_drop`, `stat_outlier`, `ml_anomaly`, `temp_outlier`
is true, each projected onto the fields `datetime`,
`five_min_pr_percent`, `active_power_effective_kw`,
`irradiance_wm_squared`, `pv_module_temperature_c`. -/
theorem c1_filter_returns_five_flag_union (ext : Externals)
    (rs : List TelemetryRecord) (st : ToolState) (h : WellFormed rs) :
    filterPlantTimeseriesData ext rs st =
      Except.ok
        (ext.toJson (((rs.zip (fiveFlagUnion ext rs)).filter fun p => p.2).map fun p => project p.1),
          stateSet st stateKey
            (ext.toJson (((rs.zip (fiveFlagUnion ext rs)).filter fun p => p.2).map fun p => project p.1))) := by
  have hok := run_ok_of_wellFormed ext rs st h
  have he := hybrid_eq_fiveFlagUnion ext rs (tempColumnPresent_of_wellFormed rs h)
  rw [hok]
  unfold serializeResult filteredRecords
  rw [he]

theorem c1_witness :
    filterPlantTimeseriesData extTriv exC5 emptyState =
      Except.ok
        (extTriv.toJson (((exC5.zip (fiveFlagUnion extTriv exC5)).filter fun p => p.2).map fun p => project p.1),
          stateSet emptyState stateKey
            (extTriv.toJson (((exC5.zip (fiveFlagUnion extTriv exC5)).filter fun p => p.2).map fun p => project p.1))) :=
  c1_filter_returns_five_flag_union extTriv exC5 emptyState (by decide)

/-- C2 counterexample: in `exC2` the second record is flagged by
`clipping` (and therefore by `production_final`), yet no record is
returned — `clipping` alone does not include a row in the result, so the
claim that any of the seven flags forces inclusion is false. -/
theorem c2_counterexample :
    (clippingList exC2).getD 1 false = true ∧
    (productionFinalList extTriv exC2).getD 1 false = true ∧
    hybridFinalList extTriv exC2 = [false, false, false] ∧
    filteredRecords extTriv exC2 = [] := by
  refine ⟨?_, ?_, ?_, ?_⟩ <;> with_unfolding_all rfl

/-- C2 amended: a record flagged by any of the five flags `low_yield`,
`power_drop`, `stat_outlier`, `ml_anomaly`, `temp_outlier` is included in
the returned result; `clipping` and `residual_anomaly` feed only the
internal `production_final` column, which does not affect the result. -/
theorem c2_amended_five_flag_included (ext : Externals)
    (rs : List TelemetryRecord) (i : Nat) (h : WellFormed rs)
    (hi : i < rs.length)
    (hflag : ((lowYieldList rs).getD i false || (powerDropList rs).getD i false ||
      (statOutlierList rs).getD i false || (mlAnomalyList ext rs).getD i false ||
      (tempOutlierList rs).getD i false) = true) :
    project (rs.get ⟨i, hi⟩) ∈ filteredRecords ext rs := by
  have hh : (hybridFinalList ext rs).getD i false = true := by
    rw [hybrid_eq_fiveFlagUnion ext rs (tempColumnPresent_of_wellFormed rs h)]
    unfold fiveFlagUnion
    rw [getD_range_map _ _ _ _ hi]
    exact hflag
  exact mem_filter_zip_map project rs (hybridFinalList ext rs) i hi hh

theorem c2_amended_witness :
    project (exW2.get ⟨0, by decide⟩) ∈ filteredRecords extTriv exW2 :=
  c2_amended_five_flag_included extTriv exW2 0 (by decide) (by decide)
    (by with_unfolding_all rfl)

/-- C3 counterexample: `exC3` has exactly 10 complete feature rows, yet
the Isolation Forest is not fitted (the source guard is strictly
`len(ml_features) > 10`) and `ml_anomaly` is false everywhere, refuting
the claim that the detector is fitted at exactly 10 complete rows. -/
theorem c3_counterexample :
    (mlFeatures exC3).length = 10 ∧ mlFitted exC3 = false ∧
    mlAnomalyList extTriv exC3 = List.replicate 10 false := by
  refine ⟨?_, ?_, ?_⟩ <;> with_unfolding_all rfl

/-- C3 amended: the Isolation Forest is fitted only when strictly more
than 10 complete feature rows exist; with 10 or fewer complete rows it is
not fitted and `ml_anomaly` is false for every row. -/
theorem c3_amended_ml_gate (ext : Externals) (rs : List TelemetryRecord)
    (h : (mlFeatures rs).length ≤ 10) :
    mlFitted rs = false ∧
    mlAnomalyList ext rs = List.replicate rs.length false := by
  constructor
  · unfold mlFitted
    simp [Nat.not_lt.mpr h]
  · unfold mlAnomalyList
    rw [if_neg (Nat.not_lt.mpr h)]
    exact map_const_false rs

theorem c3_amended_witness :
    mlFitted exC3 = false ∧
    mlAnomalyList extTriv exC3 = List.replicate exC3.length false :=
  c3_amended_ml_gate extTriv exC3 (of_decide_eq_true (by with_unfolding_all rfl))

/-- C4 counterexample: in `exC4` the first record is missing
`active_power_effective_kw`, yet the call does not fail — it returns a
normal result, because the column still exists (the second record carries
the field) and pandas fills the missing cell with `NaN`. -/
theorem c4_counterexample :
    (exC4.getD 0 defaultRecord).active_power_effective_kw = none ∧
    filterPlantTimeseriesData extTriv exC4 emptyState =
      Except.ok (serializeResult extTriv exC4,
        stateSet emptyState stateKey (serializeResult extTriv exC4)) :=
  ⟨rfl, rfl⟩

/-- C4 amended: only when every record is missing
`active_power_effective_kw` (so that the column is absent from the frame)
does the call fail, with a `KeyError` — the code's form of the spec's
`MalformedInputError` — raised at the first column access, before any
detector runs: the error does not depend on the detector oracles or on
the ambient state. -/
theorem c4_amended_missing_column_fails (ext : Externals)
    (rs : List TelemetryRecord) (st : ToolState)
    (h : ∀ r ∈ rs, r.active_power_effective_kw = none) :
    filterPlantTimeseriesData ext rs st =
      Except.error "KeyError: active_power_effective_kw" := by
  have hc : (powerCol rs).any Option.isSome = false := by
    rw [List.any_eq_false]
    intro o ho
    simp only [powerCol, List.mem_map] at ho
    obtain ⟨r, hr, hro⟩ := ho
    rw [h r hr] at hro
    rw [← hro]
    simp
  simp [filterPlantTimeseriesData, checkColumns, hc]

theorem c4_amended_witness :
    filterPlantTimeseriesData extTriv exC4bad emptyState =
      Except.error "KeyError: active_power_effective_kw" :=
  c4_amended_missing_column_fails extTriv exC4bad emptyState (by decide)

/-- C5: a well-formed input of exactly 5 records (below the ML minimum of
more than 10 complete rows and the decomposition minimum of 96
observations) yields a non-error result in which `ml_anomaly` and
`residual_anomaly` are false for every record, while the rule-based and
statistical detectors still feed the returned union. -/
theorem c5_graceful_degradation (ext : Externals) (rs : List TelemetryRecord)
    (st : ToolState) (h : WellFormed rs) (h5 : rs.length = 5) :
    filterPlantTimeseriesData ext rs st =
      Except.ok (serializeResult ext rs,
        stateSet st stateKey (serializeResult ext rs)) ∧
    mlAnomalyList ext rs = List.replicate rs.length false ∧
    residualAnomalyList ext rs = List.replicate rs.length false := by
  refine ⟨run_ok_of_wellFormed ext rs st h, ?_, ?_⟩
  · have hle : (mlFeatures rs).length ≤ 10 := by
      have := List.length_filterMap_le mlFeatureOf rs
      unfold mlFeatures
      omega
    unfold mlAnomalyList
    rw [if_neg (Nat.not_lt.mpr hle)]
    exact map_const_false rs
  · unfold residualAnomalyList
    rw [if_pos]
    simp [powerCol, h5, seasonalDecomposePeriod]

theorem c5_witness :
    filterPlantTimeseriesData extTriv exC5 emptyState =
      Except.ok (serializeResult extTriv exC5,
        stateSet emptyState stateKey (serializeResult extTriv exC5)) ∧
    mlAnomalyList extTriv exC5 = List.replicate exC5.length false ∧
    residualAnomalyList extTriv exC5 = List.replicate exC5.length false :=
  c5_graceful_degradation extTriv exC5 emptyState (by decide) (by decide)

/-- C6: on every well-formed input the call succeeds, and the returned
records form a sublist of the projected input records: no record is
invented and the flagged records keep their input order. -/
theorem c6_output_subset_in_order (ext : Externals) (rs : List TelemetryRecord)
    (st : ToolState) (h : WellFormed rs) :
    filterPlantTimeseriesData ext rs st =
      Except.ok (ext.toJson (filteredRecords ext rs),
        stateSet st stateKey (ext.toJson (filteredRecords ext rs))) ∧
    List.Sublist (filteredRecords ext rs) (rs.map project) := by
  refine ⟨run_ok_of_wellFormed ext rs st h, ?_⟩
  unfold filteredRecords
  exact filter_zip_map_sublist project rs (hybridFinalList ext rs)

theorem c6_witness :
    filterPlantTimeseriesData extTriv exW2 emptyState =
      Except.ok (extTriv.toJson (filteredRecords extTriv exW2),
        stateSet emptyState stateKey (extTriv.toJson (filteredRecords extTriv exW2))) ∧
    List.Sublist (filteredRecords extTriv exW2) (exW2.map project) :=
  c6_output_subset_in_order extTriv exW2 emptyState (by decide)

/-- C7: the returned flagged set is a deterministic function of the input
records and the (seeded, hence deterministic) external models: it does
not depend on the ambient tool state, so running the filter twice on the
same input returns the same result. -/
theorem c7_deterministic (ext : Externals) (rs : List TelemetryRecord)
    (st st2 : ToolState) :
    Except.map Prod.fst (filterPlantTimeseriesData ext rs st) =
      Except.map Prod.fst (filterPlantTimeseriesData ext rs st2) := by
  unfold filterPlantTimeseriesData
  cases checkColumns rs <;> rfl

/-- C8: a well-formed input record with zero irradiance has a missing
(null) `norm_power` rather than an infinite one, and its presence does
not make the call fail. -/
theorem c8_zero_irradiance_safe (ext : Externals) (rs : List TelemetryRecord)
    (st : ToolState) (r : TelemetryRecord) (h : WellFormed rs) (hr : r ∈ rs)
    (h0 : r.irradiance_wm_squared = some 0) :
    normPower r = none ∧
    filterPlantTimeseriesData ext rs st =
      Except.ok (serializeResult ext rs,
        stateSet st stateKey (serializeResult ext rs)) := by
  refine ⟨?_, run_ok_of_wellFormed ext rs st h⟩
  obtain ⟨p, hp⟩ := Option.isSome_iff_exists.mp (h.2 r hr).2.2.2.1
  unfold normPower
  rw [hp, h0]
  simp

theorem c8_witness :
    normPower rC8zero = none ∧
    filterPlantTimeseriesData extTriv rsC8 emptyState =
      Except.ok (serializeResult extTriv rsC8,
        stateSet emptyState stateKey (serializeResult extTriv rsC8)) :=
  c8_zero_irradiance_safe extTriv rsC8 emptyState rC8zero (by decide)
    (by unfold rsC8; exact List.mem_cons_self _ _) rfl

/-- C9: on every successful call the only state key written is
`"filtered_plant_timeseries_df"`, its stored value is exactly the
returned string, and every other key keeps its previous value. -/
theorem c9_state_frame (ext : Externals) (rs : List TelemetryRecord)
    (st : ToolState) (res : String) (st2 : ToolState)
    (h : filterPlantTimeseriesData ext rs st = Except.ok (res, st2)) :
    st2 stateKey = some res ∧ ∀ k, k ≠ stateKey → st2 k = st k := by
  have hst : st2 = stateSet st stateKey res := by
    cases hc : checkColumns rs with
    | some msg => simp [filterPlantTimeseriesData, hc] at h
    | none =>
      simp only [filterPlantTimeseriesData, hc, Except.ok.injEq, Prod.mk.injEq] at h
      rw [← h.1]
      exact h.2.symm
  subst hst
  exact ⟨by simp [stateSet], fun k hk => by simp [stateSet, hk]⟩

theorem c9_witness :
    (stateSet emptyState stateKey (serializeResult extTriv exW2)) stateKey =
      some (serializeResult extTriv exW2) ∧
    ∀ k, k ≠ stateKey →
      (stateSet emptyState stateKey (serializeResult extTriv exW2)) k = emptyState k :=
  c9_state_frame extTriv exW2 emptyState (serializeResult extTriv exW2)
    (stateSet emptyState stateKey (serializeResult extTriv exW2)) rfl

/-- C10: on every well-formed input the first record is never flagged by
`power_drop` nor by `clipping`: its first difference of power is missing,
and a comparison against a missing value is false. -/
theorem c10_first_record_not_flagged (rs : List TelemetryRecord)
    (h : WellFormed rs) :
    (powerDropList rs).getD 0 true = false ∧
    (clippingList rs).getD 0 true = false := by
  obtain ⟨hne, _⟩ := h
  obtain ⟨r, rest, rfl⟩ := List.exists_cons_of_ne_nil hne
  exact ⟨rfl, rfl⟩

theorem c10_witness :
    (powerDropList exC5).getD 0 true = false ∧
    (clippingList exC5).getD 0 true = false :=
  c10_first_record_not_flagged exC5 (by decide)

end AnomalyFilter
